import Mathlib

/-!
Shallow embedding of the PPA quotation / recontract backend
(`src/app/api/ppa_quotations.py`, `src/app/api/recontract.py`,
`src/app/models.py`, `src/app/schemas_recontract.py`).

Conventions of the embedding:
* Python `date` values are `PDate` (proleptic Gregorian calendar);
  `datetime.timedelta(days=n)` addition is `addDays`.
* Python `float` columns (contracted kW, capacities, prices) are modelled
  as exact rationals `Rat`; the quantities the endpoints aggregate are
  sums of per-row values, which the claims treat as exact.
* SQL result sets are lists of rows; `NULL`able columns are `Option`.
* The SQL statements the handlers issue (joins, `GROUP BY` aggregation,
  `ORDER BY`, `LIMIT/OFFSET`, bulk `UPDATE`) are translated into list
  functions mirroring their semantics row by row.
-/

set_option maxRecDepth 4000

attribute [local semireducible] Rat.add

/-- ASCII upper-casing of one character.  The area codes and sort keys
this backend compares are ASCII, so Python's `str.upper` coincides with
this on every input the code meets. -/
def asciiUpperChar (c : Char) : Char :=
  if 97 ≤ c.toNat && c.toNat ≤ 122 then Char.ofNat (c.toNat - 32) else c

/-- ASCII lower-casing of one character (Python's `str.lower` on the
ASCII keys this backend compares). -/
def asciiLowerChar (c : Char) : Char :=
  if 65 ≤ c.toNat && c.toNat ≤ 90 then Char.ofNat (c.toNat + 32) else c

/-- `s.upper()` on ASCII strings. -/
def strUpper (s : String) : String :=
  ⟨s.data.map asciiUpperChar⟩

/-- `s.lower()` on ASCII strings. -/
def strLower (s : String) : String :=
  ⟨s.data.map asciiLowerChar⟩

/-- Calendar date, as Python's `datetime.date`. -/
structure PDate where
  year : Nat
  month : Nat
  day : Nat
deriving DecidableEq, Repr

/-- Gregorian leap-year rule (as used by Python's `datetime`). -/
def isLeapYear (y : Nat) : Bool :=
  (y % 4 = 0 && y % 100 ≠ 0) || y % 400 = 0

/-- Number of days in a month of a given year. -/
def daysInMonth (y m : Nat) : Nat :=
  if m = 2 then (if isLeapYear y then 29 else 28)
  else if m = 4 || m = 6 || m = 9 || m = 11 then 30
  else 31

/-- The day after `d`. -/
def nextDay (d : PDate) : PDate :=
  if d.day < daysInMonth d.year d.month then ⟨d.year, d.month, d.day + 1⟩
  else if d.month < 12 then ⟨d.year, d.month + 1, 1⟩
  else ⟨d.year + 1, 1, 1⟩

/-- The day before `d`. -/
def prevDay (d : PDate) : PDate :=
  if 1 < d.day then ⟨d.year, d.month, d.day - 1⟩
  else if 1 < d.month then ⟨d.year, d.month - 1, daysInMonth d.year (d.month - 1)⟩
  else ⟨d.year - 1, 12, 31⟩

/-- `d + timedelta(days := n)`. -/
def addDays (d : PDate) (n : Int) : PDate :=
  if 0 ≤ n then Nat.iterate nextDay n.toNat d else Nat.iterate prevDay (-n).toNat d

/-- Zero-pad a number to two digits (`strftime` field). -/
def pad2 (n : Nat) : String :=
  if n < 10 then "0" ++ toString n else toString n

/-- Zero-pad a number to four digits (`strftime` year field). -/
def pad4 (n : Nat) : String :=
  if n < 10 then "000" ++ toString n
  else if n < 100 then "00" ++ toString n
  else if n < 1000 then "0" ++ toString n
  else toString n

/-- `d.strftime("%Y-%m-%d")`. -/
def isoDate (d : PDate) : String :=
  pad4 d.year ++ "-" ++ pad2 d.month ++ "-" ++ pad2 d.day

/-- `AREA_REGION_MAP` of `ppa_quotations.py`: area code to
`(region_id, region_name_en, region_name_jp)`. -/
def AREA_REGION_MAP : List (String × Nat × String × String) :=
  [ ("HOKKAIDO", (1, "Hokkaido", "北海道")),
    ("TOHOKU",   (2, "Tohoku",   "東北")),
    ("KANTO",    (3, "Tokyo",    "東京")),
    ("CHUBU",    (4, "Chubu",    "中部")),
    ("KANSAI",   (5, "Kansai",   "関西")),
    ("CHUGOKU",  (6, "Chugoku",  "中国")),
    ("SHIKOKU",  (7, "Shikoku",  "四国")),
    ("KYUSHU",   (8, "Kyushu",   "九州")) ]

/-- `region_from_area` of `ppa_quotations.py`.  A `none` or empty area
(Python falsy) yields `(none, none, none)`; otherwise the upper-cased
area is looked up, defaulting to `(none, area, area)`. -/
def region_from_area (area : Option String) :
    Option Nat × Option String × Option String :=
  match area with
  | none => (none, none, none)
  | some a =>
    if a = "" then (none, none, none)
    else
      match AREA_REGION_MAP.lookup (strUpper a) with
      | some (i, en, jp) => (some i, some en, some jp)
      | none => (none, some a, some a)

/-- `_format_quote_valid_until` of `ppa_quotations.py`: given the request
date and the validity window in days, return the display label and the
expiration date.  Python's `if not requested_at or not days` treats a
missing date, a missing day count and a day count of `0` alike. -/
def format_quote_valid_until (requested_at : Option PDate) (days : Option Int) :
    String × Option PDate :=
  match requested_at, days with
  | some r, some d =>
    if d = 0 then ("", none)
    else
      let exp := addDays r d
      (isoDate exp ++ " (" ++ toString d ++ "日)", some exp)
  | _, _ => ("", none)

/-- View of the handler's `(label, expiration)` pair as the JSON the
response schema (`quote_valid_until : Optional[str]`) serializes: the
label, being a `str`, is a (possibly empty) JSON string, never `null`. -/
def quoteValidUntilJson (p : String × Option PDate) : Option String × Option PDate :=
  (some p.1, p.2)

/-- Modelled from the spec: the Validity-window mapper as §4.2/§8.3 word
it, with the display string itself nullable and *null* (not empty) when
either input is absent. -/
def format_quote_valid_until_specNull (requested_at : Option PDate) (days : Option Int) :
    Option String × Option PDate :=
  match requested_at, days with
  | some r, some d =>
    let exp := addDays r d
    (some (isoDate exp ++ " (" ++ toString d ++ "日)"), some exp)
  | _, _ => (none, none)

/-- The sort columns `list_ppa_quotations` can actually order by
(the values of its `sort_map`). -/
inductive SortCol where
  | updated_at
  | contract_start_date
  | customer_name
deriving DecidableEq, Repr

/-- `sort_map` of `list_ppa_quotations`. -/
def sort_map : List (String × SortCol) :=
  [ ("updated_at", SortCol.updated_at),
    ("contract_start_date", SortCol.contract_start_date),
    ("customer_name", SortCol.customer_name) ]

/-- `sort_map.get((sort_by or "").lower(), literal_column("updated_at"))`. -/
def resolveSortCol (sort_by : Option String) : SortCol :=
  (sort_map.lookup (strLower (sort_by.getD ""))).getD SortCol.updated_at

/-- `(sort_order or "").lower() == "asc"`: `true` selects ascending
order, anything else leaves the default descending order. -/
def sortOrderIsAsc (sort_order : Option String) : Bool :=
  strLower (sort_order.getD "") = "asc"


/-- A row of `plans`. -/
structure PlanRow where
  id : Nat
  name : String
deriving DecidableEq, Repr

/-- A row of `customers` (columns the inspected endpoints read). -/
structure CustomerRow where
  id : Nat
  name : String
deriving DecidableEq, Repr

/-- A row of `agencies`. -/
structure AgencyRow where
  id : Nat
  name : String
deriving DecidableEq, Repr

/-- A row of `ppa_bundles` (the columns the two `ppa_quotations`
endpoints select; `updated_at` is abstracted to a tick count, and the
two status enums are display-only and not needed by any claim). -/
structure PpaBundleRow where
  id : Nat
  customer_id : Nat
  agency_id : Option Nat
  plan_id : Nat
  area : String
  requested_at : Option PDate
  request_due_date : Option PDate
  quote_valid_days : Option Int
  contract_start_date : Option PDate
  updated_at : Nat
deriving DecidableEq, Repr

/-- A row of `ppa_projects`. -/
structure PpaProjectRow where
  id : Nat
  bundle_id : Nat
  capacity_mw : Rat
deriving DecidableEq, Repr

/-- A row of `ppa_supply_points` (`project_id` and `contract_kw` are
nullable in the model). -/
structure PpaSupplyPointRow where
  id : Nat
  bundle_id : Nat
  project_id : Option Nat
  contract_kw : Option Rat
deriving DecidableEq, Repr

/-- The tables the `ppa_quotations` endpoints touch. -/
structure PpaDb where
  plans : List PlanRow
  customers : List CustomerRow
  agencies : List AgencyRow
  bundles : List PpaBundleRow
  projects : List PpaProjectRow
  supply_points : List PpaSupplyPointRow
deriving DecidableEq, Repr

/-- Join rows produced for bundle `b` by the chained
`.outerjoin(PpaProject, PpaProject.bundle_id == PpaBundle.id)`
`.outerjoin(PpaSupplyPoint, PpaSupplyPoint.bundle_id == PpaBundle.id)`
of both the list statement and the detail header statement: left-join
chaining yields one row per (project, supply point) pair of the bundle,
with `none` standing for the `NULL`-padded side when a bundle has no
projects or no supply points. -/
def fanoutRows (db : PpaDb) (b : PpaBundleRow) :
    List (Option PpaProjectRow × Option PpaSupplyPointRow) :=
  let ps := db.projects.filter (fun p => p.bundle_id = b.id)
  let sps := db.supply_points.filter (fun s => s.bundle_id = b.id)
  let pOpts : List (Option PpaProjectRow) := if ps.isEmpty then [none] else ps.map some
  let sOpts : List (Option PpaSupplyPointRow) := if sps.isEmpty then [none] else sps.map some
  (pOpts.map (fun p => sOpts.map (fun s => (p, s)))).flatten

/-- `func.count(PpaSupplyPoint.id)` over a group: counts join rows whose
supply-point side is non-`NULL`. -/
def sqlCountSp (rows : List (Option PpaProjectRow × Option PpaSupplyPointRow)) : Nat :=
  (rows.filter (fun r => r.2.isSome)).length

/-- `func.coalesce(func.sum(PpaSupplyPoint.contract_kw), 0.0)` over a
group: `SUM` skips `NULL`s and an empty/all-`NULL` group coalesces
to `0.0`. -/
def sqlSumKw (rows : List (Option PpaProjectRow × Option PpaSupplyPointRow)) : Rat :=
  (rows.map (fun r => match r.2 with
    | some s => s.contract_kw.getD 0
    | none => 0)).sum

/-- `func.count(sa.distinct(PpaProject.id))` over a group. -/
def sqlCountDistinctProj
    (rows : List (Option PpaProjectRow × Option PpaSupplyPointRow)) : Nat :=
  ((rows.filterMap (fun r => r.1.map (fun p => p.id))).dedup).length

/-- The optional query parameters of `list_ppa_quotations` that filter
the statement. -/
structure ListFilters where
  customer_id : Option Nat
  agency_id : Option Nat
  region : Option String
deriving DecidableEq, Repr

/-- The three `stmt.where` filters: equality on the bundle's own
columns; the `region` filter is guarded by Python's falsy test
(`if region:`), so an empty string applies no filter. -/
def passesFilters (f : ListFilters) (b : PpaBundleRow) : Bool :=
  (match f.customer_id with | some c => b.customer_id = c | none => true) &&
  (match f.agency_id with | some a => b.agency_id = some a | none => true) &&
  (match f.region with
    | some r => if r = "" then true else b.area = r
    | none => true)

/-- The two inner joins of the statement: a bundle row survives only if
its plan and customer rows exist (ids are primary keys, so at most one
match each). -/
def joinOk (db : PpaDb) (b : PpaBundleRow) : Bool :=
  (db.plans.any (fun p => p.id = b.plan_id)) &&
  (db.customers.any (fun c => c.id = b.customer_id))

/-- `Customer.name` selected through the inner join. -/
def customerNameOf (db : PpaDb) (b : PpaBundleRow) : String :=
  ((db.customers.find? (fun c => c.id = b.customer_id)).map (fun c => c.name)).getD ""

/-- One grouped output row of the list statement (the columns the
claims are about). -/
structure ListRow where
  bundle_id : Nat
  customer_name : String
  updated_at : Nat
  sp_count : Nat
  sum_kw : Rat
  project_count : Nat
deriving DecidableEq, Repr

/-- The grouped, filtered (but not yet ordered or paginated) result set
of `list_ppa_quotations`: one row per surviving bundle — the `GROUP BY`
covers every selected bundle-owned column and bundle ids are primary
keys — carrying the three aggregates computed over that bundle's
fan-out join rows. -/
def groupedBundles (db : PpaDb) (f : ListFilters) : List ListRow :=
  (db.bundles.filter (fun b => joinOk db b && passesFilters f b)).map (fun b =>
    { bundle_id := b.id
      customer_name := customerNameOf db b
      updated_at := b.updated_at
      sp_count := sqlCountSp (fanoutRows db b)
      sum_kw := sqlSumKw (fanoutRows db b)
      project_count := sqlCountDistinctProj (fanoutRows db b) })

/-- `filtered_count`: `SELECT count(*)` over the grouped subquery. -/
def filteredCount (db : PpaDb) (f : ListFilters) : Nat :=
  (groupedBundles db f).length

/-- What the endpoint serializes as `num_of_spids`
(`int(r.sp_count or 0)`) for bundle `b`. -/
def listNumOfSpids (db : PpaDb) (b : PpaBundleRow) : Nat :=
  sqlCountSp (fanoutRows db b)

/-- What the endpoint serializes as `contract_power_kw`
(`float(r.sum_kw or 0.0)`) for bundle `b`. -/
def listContractPowerKw (db : PpaDb) (b : PpaBundleRow) : Rat :=
  sqlSumKw (fanoutRows db b)

/-- The bundle's `PpaSupplyPoint` children. -/
def bundleSupplyPoints (db : PpaDb) (bundle_id : Nat) : List PpaSupplyPointRow :=
  db.supply_points.filter (fun s => s.bundle_id = bundle_id)

/-- Modelled from the spec's aggregation invariant: a bundle's total
contracted kW is "the sum over its PpaSupplyPoint children", 0.0 when
there are none. -/
def specContractPowerKw (db : PpaDb) (bundle_id : Nat) : Rat :=
  ((bundleSupplyPoints db bundle_id).map (fun s => s.contract_kw.getD 0)).sum

/-- Modelled from the spec's aggregation invariant: a bundle's
supply-point count is the count of its PpaSupplyPoint children. -/
def specNumOfSpids (db : PpaDb) (bundle_id : Nat) : Nat :=
  (bundleSupplyPoints db bundle_id).length

/-- An execution of the paged list query: what the code's single
`ORDER BY <resolved sort column> DESC` (default sort, no tie-break
column) constrains the returned row order to — any permutation of the
grouped rows that is non-increasing in `updated_at`. -/
def validListExecution (db : PpaDb) (f : ListFilters) (l : List ListRow) : Prop :=
  l.Perm (groupedBundles db f) ∧
  List.Chain' (fun a b => b.updated_at ≤ a.updated_at) l

instance (db : PpaDb) (f : ListFilters) (l : List ListRow) :
    Decidable (validListExecution db f l) :=
  inferInstanceAs (Decidable (l.Perm (groupedBundles db f) ∧
    List.Chain' (fun a b : ListRow => b.updated_at ≤ a.updated_at) l))

/-- `.limit(rows).offset((page - 1) * rows)` applied to an execution
order `l` of the full result set. -/
def pageOf (l : List ListRow) (rows page : Nat) : List ListRow :=
  (l.drop ((page - 1) * rows)).take rows

/-- Concatenation of pages `1..n` (each page taken from execution
order `l`). -/
def concatPages (l : List ListRow) (rows : Nat) : Nat → List ListRow
  | 0 => []
  | n + 1 => concatPages l rows n ++ pageOf l rows (n + 1)

/-- One output row of the detail endpoint's per-project statement. -/
structure ProjDetailRow where
  project_id : Nat
  capacity_mw : Rat
  sp_count : Nat
  sum_kw : Rat
deriving DecidableEq, Repr

/-- The bundle's projects in the order the per-project statement
returns them (`.order_by(PpaProject.id)`, ascending). -/
def bundleProjectsSorted (db : PpaDb) (bundle_id : Nat) : List PpaProjectRow :=
  List.insertionSort (fun a b => a.id ≤ b.id)
    (db.projects.filter (fun p => p.bundle_id = bundle_id))

/-- Supply points the per-project statement joins to a project:
`.outerjoin(PpaSupplyPoint, PpaSupplyPoint.project_id == PpaProject.id)` —
rows whose nullable `project_id` equals the project's id. -/
def linkedSupplyPoints (db : PpaDb) (project_id : Nat) : List PpaSupplyPointRow :=
  db.supply_points.filter (fun s => s.project_id = some project_id)

/-- The detail endpoint's per-project aggregation
(`get_ppa_quotation_detail`, `proj_stmt`): one row per project of the
bundle, ordered by project id ascending, counting and summing only the
supply points linked to that project. -/
def projDetailRows (db : PpaDb) (bundle_id : Nat) : List ProjDetailRow :=
  (bundleProjectsSorted db bundle_id).map (fun p =>
    { project_id := p.id
      capacity_mw := p.capacity_mw
      sp_count := (linkedSupplyPoints db p.id).length
      sum_kw := ((linkedSupplyPoints db p.id).map (fun s => s.contract_kw.getD 0)).sum })

/-- The detail endpoint's header aggregates
(`num_of_spids`, `contract_power_kw`) for a bundle id, `none` when the
bundle does not survive the joins (404).  The header statement carries
the same two chained outer joins as the list statement, so the
aggregates are computed over the same fan-out join rows. -/
def detailHeader (db : PpaDb) (bundle_id : Nat) : Option (Nat × Rat) :=
  (db.bundles.find? (fun b => b.id = bundle_id && joinOk db b)).map
    (fun b => (sqlCountSp (fanoutRows db b), sqlSumKw (fanoutRows db b)))

/-- `ContractStatus` of `models.py`. -/
inductive ContractStatus where
  | UNDER_CONTRACT
  | RECONTRACT_ESTIMATE
  | RECONTRACTED
deriving DecidableEq, Repr

/-- A row of `contracts` (timestamps omitted; the write path never
touches them). -/
structure ContractRow where
  id : Nat
  customer_id : Nat
  plan_id : Nat
  supply_point_number : String
  start_date : PDate
  end_date : PDate
  negotiated_power_kw : Option Rat
  status : ContractStatus
deriving DecidableEq, Repr

/-- A row of `recontract_estimates`. -/
structure RecontractEstimateRow where
  id : Nat
  customer_id : Nat
  plan_id : Nat
  desired_quote_date : PDate
  quote_effective_days : Int
  remarks : Option String
deriving DecidableEq, Repr

/-- A row of `recontract_supply_points`. -/
structure RecontractSupplyPointRow where
  id : Nat
  estimate_id : Nat
  supply_point_number : String
deriving DecidableEq, Repr

/-- A row of `recontract_plants`. -/
structure RecontractPlantRow where
  id : Nat
  estimate_id : Nat
  capacity_mw : Rat
  ppa_unit_price_yen_per_kwh : Option Rat
deriving DecidableEq, Repr

/-- The tables `create_recontract_estimate` touches, plus the autoincrement
counters the database uses to assign fresh primary keys. -/
structure RecontractDb where
  plans : List PlanRow
  customers : List CustomerRow
  contracts : List ContractRow
  estimates : List RecontractEstimateRow
  recontract_supply_points : List RecontractSupplyPointRow
  recontract_plants : List RecontractPlantRow
  nextEstimateId : Nat
  nextSupplyPointId : Nat
  nextPlantId : Nat
deriving DecidableEq, Repr

/-- `SupplyPointIn` of `schemas_recontract.py`. -/
structure SupplyPointIn where
  supply_point_number : String
deriving DecidableEq, Repr

/-- `PlantIn` of `schemas_recontract.py`. -/
structure PlantIn where
  capacity_mw : Rat
  ppa_unit_price_yen_per_kwh : Option Rat
deriving DecidableEq, Repr

/-- `RecontractEstimateIn` of `schemas_recontract.py` (a payload that
already passed schema validation and reached the handler). -/
structure RecontractEstimateIn where
  plan_id : Nat
  customer_id : Nat
  desired_quote_date : PDate
  quote_effective_days : Int
  remarks : Option String
  supply_points : List SupplyPointIn
  plants : List PlantIn
deriving DecidableEq, Repr

/-- One contract row under the bulk
`UPDATE contracts SET status = RECONTRACT_ESTIMATE
 WHERE supply_point_number IN spns AND status = UNDER_CONTRACT`. -/
def applyRecontractTransition (spns : List String) (c : ContractRow) : ContractRow :=
  if spns.contains c.supply_point_number ∧ c.status = ContractStatus.UNDER_CONTRACT then
    { c with status := ContractStatus.RECONTRACT_ESTIMATE }
  else c

/-- `create_recontract_estimate` of `recontract.py` as a state
transition: validate the plan / customer foreign keys and the
quote-effective-days enum (400 on failure, nothing written), then in one
transaction insert the header, one supply-point row per payload entry,
the implicit zero-capacity plant followed by the user plants, and run
the bulk contract-status update (guarded by `if payload.supply_points`).
Returns the new database state and either the created estimate id or
the HTTP error status. -/
def create_recontract_estimate (db : RecontractDb) (payload : RecontractEstimateIn) :
    RecontractDb × Except Nat Nat :=
  if (db.plans.find? (fun p => p.id = payload.plan_id)).isNone then
    (db, Except.error 400)
  else if (db.customers.find? (fun c => c.id = payload.customer_id)).isNone then
    (db, Except.error 400)
  else if ¬(payload.quote_effective_days = 30 ∨ payload.quote_effective_days = 60) then
    (db, Except.error 400)
  else
    let eid := db.nextEstimateId
    let est : RecontractEstimateRow :=
      { id := eid
        customer_id := payload.customer_id
        plan_id := payload.plan_id
        desired_quote_date := payload.desired_quote_date
        quote_effective_days := payload.quote_effective_days
        remarks := payload.remarks }
    let newSps : List RecontractSupplyPointRow :=
      payload.supply_points.enum.map (fun ip =>
        { id := db.nextSupplyPointId + ip.1
          estimate_id := eid
          supply_point_number := ip.2.supply_point_number })
    let newPlants : List RecontractPlantRow :=
      { id := db.nextPlantId
        estimate_id := eid
        capacity_mw := 0
        ppa_unit_price_yen_per_kwh := none } ::
      payload.plants.enum.map (fun ip =>
        { id := db.nextPlantId + 1 + ip.1
          estimate_id := eid
          capacity_mw := ip.2.capacity_mw
          ppa_unit_price_yen_per_kwh := ip.2.ppa_unit_price_yen_per_kwh })
    let spns := payload.supply_points.map (fun sp => sp.supply_point_number)
    let contracts2 :=
      if payload.supply_points.isEmpty then db.contracts
      else db.contracts.map (applyRecontractTransition spns)
    ({ db with
        estimates := db.estimates ++ [est]
        recontract_supply_points := db.recontract_supply_points ++ newSps
        recontract_plants := db.recontract_plants ++ newPlants
        contracts := contracts2
        nextEstimateId := eid + 1
        nextSupplyPointId := db.nextSupplyPointId + newSps.length
        nextPlantId := db.nextPlantId + newPlants.length },
     Except.ok eid)

/-- The plant rows stored for estimate `eid`. -/
def plantsOfEstimate (db : RecontractDb) (eid : Nat) : List RecontractPlantRow :=
  db.recontract_plants.filter (fun p => p.estimate_id = eid)

/-- C5 as stated is false: the lookup table has eight entries, omits the
Hokuriku grid region entirely, and numbers Kyushu 8, not 9 — so it does
not cover "the nine Japanese electricity-grid regions numbered
Hokkaido=1 through Kyushu=9". -/
theorem C5_counterexample :
    region_from_area (some "KYUSHU") = (some 8, some "Kyushu", some "九州") ∧
    (region_from_area (some "KYUSHU")).1 ≠ some 9 ∧
    region_from_area (some "HOKURIKU") = (none, some "HOKURIKU", some "HOKURIKU") ∧
    AREA_REGION_MAP.length = 8 := by
  refine ⟨by decide, by decide, by decide, by decide⟩

/-- C5 amended: the region mapping is a fixed case-insensitive lookup
covering the eight grid regions Hokkaido=1 … Kyushu=8 (Hokuriku absent);
an absent or empty area code yields `(none, none, none)`, and any other
unrecognized area code yields `(none, area, area)`; the function is
total, so it never raises. -/
theorem C5_amended :
    region_from_area (some "hokkaido") = (some 1, some "Hokkaido", some "北海道") ∧
    region_from_area (some "TOHOKU") = (some 2, some "Tohoku", some "東北") ∧
    region_from_area (some "Kanto") = (some 3, some "Tokyo", some "東京") ∧
    region_from_area (some "chubu") = (some 4, some "Chubu", some "中部") ∧
    region_from_area (some "KANSAI") = (some 5, some "Kansai", some "関西") ∧
    region_from_area (some "chugoku") = (some 6, some "Chugoku", some "中国") ∧
    region_from_area (some "Shikoku") = (some 7, some "Shikoku", some "四国") ∧
    region_from_area (some "kyushu") = (some 8, some "Kyushu", some "九州") ∧
    region_from_area none = (none, none, none) ∧
    region_from_area (some "") = (none, none, none) ∧
    (∀ a : String, a ≠ "" → AREA_REGION_MAP.lookup (strUpper a) = none →
      region_from_area (some a) = (none, some a, some a)) := by
  refine ⟨by decide, by decide, by decide, by decide, by decide, by decide, by decide,
    by decide, by decide, by decide, ?_⟩
  intro a h1 h2
  simp only [region_from_area, if_neg h1, h2]

/-- Witness for `C5_amended`: the unrecognized area code "MARS" maps to
the `(none, "MARS", "MARS")` fallback triplet. -/
theorem C5_amended_witness :
    region_from_area (some "MARS") = (none, some "MARS", some "MARS") :=
  C5_amended.2.2.2.2.2.2.2.2.2.2 "MARS" (by decide) (by decide)

/-- C6 as stated is false: with a present request date and an absent day
count the handler returns the pair `("", none)` — the serialized
`quote_valid_until` field is the empty JSON string, not `null` as the
claim's "(both null)" requires; the spec-worded nullable variant
disagrees with the code's output at that input. -/
theorem C6_counterexample :
    quoteValidUntilJson (format_quote_valid_until (some ⟨2025, 7, 1⟩) none)
      ≠ format_quote_valid_until_specNull (some ⟨2025, 7, 1⟩) none ∧
    (quoteValidUntilJson (format_quote_valid_until (some ⟨2025, 7, 1⟩) none)).1 = some "" ∧
    (format_quote_valid_until_specNull (some ⟨2025, 7, 1⟩) none).1 = none := by
  refine ⟨by decide, by decide, by decide⟩

/-- C6 amended: with both inputs present the mapper computes
`expiration = request date + days` and renders exactly
"ISO-date (days日)" — request date 2025-07-01 with 60 days yields
expiration 2025-08-30 and display "2025-08-30 (60日)"; if either input
is absent it produces the empty display string and a null expiration
date, never fabricating a value from only one input. -/
theorem C6_amended :
    format_quote_valid_until (some ⟨2025, 7, 1⟩) (some 60)
      = ("2025-08-30 (60日)", some ⟨2025, 8, 30⟩) ∧
    (∀ days, format_quote_valid_until none days = ("", none)) ∧
    (∀ r, format_quote_valid_until (some r) none = ("", none)) := by
  refine ⟨by decide, ?_, ?_⟩
  · intro days; cases days <;> rfl
  · intro r; rfl

/-- Witness for `C6_amended`: a present day count with an absent request
date yields no label and no expiration date. -/
theorem C6_amended_witness :
    format_quote_valid_until none (some 60) = ("", none) :=
  C6_amended.2.1 (some 60)

/-- C7 as stated is false: "id", "plan_name" and "region" are not in the
code's `sort_map`, so all three fall back to sorting by `updated_at`
instead of being supported sort keys of their own. -/
theorem C7_counterexample :
    sort_map.lookup "id" = none ∧
    sort_map.lookup "plan_name" = none ∧
    sort_map.lookup "region" = none ∧
    resolveSortCol (some "id") = SortCol.updated_at ∧
    resolveSortCol (some "plan_name") = SortCol.updated_at ∧
    resolveSortCol (some "region") = SortCol.updated_at := by
  refine ⟨by decide, by decide, by decide, by decide, by decide, by decide⟩

/-- C7 amended: the list endpoint's sort key is one of the fixed set
comprising updated_at, contract_start_date and customer_name; every key
outside this set (and an absent key) resolves to sorting by updated_at
rather than producing an error, and sort direction defaults to
descending with "asc" (case-insensitively) selecting ascending order. -/
theorem C7_amended :
    resolveSortCol (some "updated_at") = SortCol.updated_at ∧
    resolveSortCol (some "contract_start_date") = SortCol.contract_start_date ∧
    resolveSortCol (some "customer_name") = SortCol.customer_name ∧
    resolveSortCol none = SortCol.updated_at ∧
    (∀ s : String, sort_map.lookup (strLower s) = none →
      resolveSortCol (some s) = SortCol.updated_at) ∧
    sortOrderIsAsc none = false ∧
    sortOrderIsAsc (some "desc") = false ∧
    sortOrderIsAsc (some "asc") = true ∧
    sortOrderIsAsc (some "ASC") = true := by
  refine ⟨by decide, by decide, by decide, by decide, ?_, by decide, by decide,
    by decide, by decide⟩
  intro s h
  simp only [resolveSortCol, Option.getD_some, h, Option.getD_none]

/-- Witness for `C7_amended`: the malformed sort key "bogus" resolves to
the updated_at default. -/
theorem C7_amended_witness :
    resolveSortCol (some "bogus") = SortCol.updated_at :=
  C7_amended.2.2.2.2.1 "bogus" (by decide)

/-- C10: for every present base date, a day count of exactly 0 is
treated like an absent day count (`if not days` is true for both),
yielding the empty display label and a null expiration date rather than
`base + 0 days` with a "(0日)" label. -/
theorem C10_zero_days_like_absent (r : PDate) :
    format_quote_valid_until (some r) (some 0) = ("", none) ∧
    format_quote_valid_until (some r) (some 0)
      = format_quote_valid_until (some r) none := by
  constructor <;> simp [format_quote_valid_until]

/-- Witness for `C10_zero_days_like_absent` at the date 2025-07-01. -/
theorem C10_witness :
    format_quote_valid_until (some ⟨2025, 7, 1⟩) (some 0) = ("", none) :=
  (C10_zero_days_like_absent ⟨2025, 7, 1⟩).1

/-- No query-string filters supplied. -/
def exNoFilters : ListFilters := { customer_id := none, agency_id := none, region := none }

/-- A bundle owning two projects and three supply points. -/
def exBundleC1 : PpaBundleRow :=
  { id := 1, customer_id := 1, agency_id := none, plan_id := 1, area := "KANTO"
    requested_at := none, request_due_date := none, quote_valid_days := none
    contract_start_date := none, updated_at := 0 }

/-- Database for the aggregate claim: bundle 1 has supply points with
contracted kW 500, 440, 600 (none project-linked) and two projects. -/
def exDbC1 : PpaDb :=
  { plans := [⟨1, "PPA Standard"⟩]
    customers := [⟨1, "Acme"⟩]
    agencies := []
    bundles := [exBundleC1]
    projects := [⟨1, 1, 1⟩, ⟨2, 1, 2⟩]
    supply_points :=
      [ ⟨1, 1, none, some 500⟩, ⟨2, 1, none, some 440⟩, ⟨3, 1, none, some 600⟩ ] }

/-- The same database with the second project removed. -/
def exDbC1one : PpaDb :=
  { exDbC1 with projects := [⟨1, 1, 1⟩] }

/-- C1 evaluated: the bundle's supply-point children sum to 1540 kW and
count 3, and with a single project the endpoint reports exactly that;
but because the list statement chains two outer joins on `bundle_id`,
each supply-point row is repeated once per project, so the same bundle
with two projects is reported with `contract_power_kw = 3080` and
`num_of_spids = 6` — the claimed "regardless of how many PpaProject rows
the bundle owns" fails, against the schema's own comment
(`contract_power_kw ... = sum of SP.contract_kw for bundle`) and the
spec's aggregation invariant. -/
theorem C1_fanout_eval :
    specContractPowerKw exDbC1 1 = 1540 ∧
    specNumOfSpids exDbC1 1 = 3 ∧
    listContractPowerKw exDbC1one exBundleC1 = 1540 ∧
    listNumOfSpids exDbC1one exBundleC1 = 3 ∧
    listContractPowerKw exDbC1 exBundleC1 = 3080 ∧
    listNumOfSpids exDbC1 exBundleC1 = 6 ∧
    groupedBundles exDbC1 exNoFilters
      = [{ bundle_id := 1, customer_name := "Acme", updated_at := 0,
           sp_count := 6, sum_kw := 3080, project_count := 2 }] := by
  refine ⟨by decide, by decide, by decide, by decide, by decide, by decide, by decide⟩

/-- A bundle owning two projects and five supply points, two of them
linked to project 1. -/
def exBundleC8 : PpaBundleRow :=
  { id := 2, customer_id := 1, agency_id := none, plan_id := 1, area := "KANSAI"
    requested_at := none, request_due_date := none, quote_valid_days := none
    contract_start_date := none, updated_at := 0 }

/-- Database for the detail rollup claim: bundle 2 has projects 2 and 1
(stored unsorted), supply points 1–2 linked to project 1 (kW 100, 200)
and supply points 3–5 unlinked (kW 10, 20, 30). -/
def exDbC8 : PpaDb :=
  { plans := [⟨1, "PPA Standard"⟩]
    customers := [⟨1, "Acme"⟩]
    agencies := []
    bundles := [exBundleC8]
    projects := [⟨2, 2, 7⟩, ⟨1, 2, 5⟩]
    supply_points :=
      [ ⟨1, 2, some 1, some 100⟩, ⟨2, 2, some 1, some 200⟩,
        ⟨3, 2, none, some 10⟩, ⟨4, 2, none, some 20⟩, ⟨5, 2, none, some 30⟩ ] }

/-- C8 evaluated: the per-project rollup is returned ordered by project
id ascending and restricted to project-linked supply points (project 1
counts its 2 linked points for 300 kW, project 2 counts none, the 3
unlinked points are excluded) — but the bundle-level totals of the same
detail response come from the fan-out header join, so with two projects
they report 10 supply points and 720 kW instead of the bundle's actual
5 children and 360 kW. -/
theorem C8_project_rollup_eval :
    projDetailRows exDbC8 2
      = [ { project_id := 1, capacity_mw := 5, sp_count := 2, sum_kw := 300 },
          { project_id := 2, capacity_mw := 7, sp_count := 0, sum_kw := 0 } ] ∧
    specNumOfSpids exDbC8 2 = 5 ∧
    specContractPowerKw exDbC8 2 = 360 ∧
    detailHeader exDbC8 2 = some (10, 720) := by
  refine ⟨by decide, by decide, by decide, by decide⟩

/-- C2: when the payload's plan id or customer id references no existing
row, `create_recontract_estimate` answers HTTP 400 and the returned
database state is the input state unchanged — no estimate header, no
recontract supply points, no recontract plants, no contract touched
(both validations run before anything is added to the session). -/
theorem C2_invalid_fk_returns_400_no_writes (db : RecontractDb)
    (payload : RecontractEstimateIn)
    (h : (db.plans.find? (fun p => p.id = payload.plan_id)).isNone ∨
         (db.customers.find? (fun c => c.id = payload.customer_id)).isNone) :
    create_recontract_estimate db payload = (db, Except.error 400) ∧
    (create_recontract_estimate db payload).1.estimates = db.estimates ∧
    (create_recontract_estimate db payload).1.recontract_supply_points
      = db.recontract_supply_points ∧
    (create_recontract_estimate db payload).1.recontract_plants
      = db.recontract_plants ∧
    (create_recontract_estimate db payload).1.contracts = db.contracts := by
  have hmain : create_recontract_estimate db payload = (db, Except.error 400) := by
    unfold create_recontract_estimate
    rcases h with h | h
    · rw [if_pos h]
    · by_cases hp : (db.plans.find? (fun p => p.id = payload.plan_id)).isNone
      · rw [if_pos hp]
      · rw [if_neg hp, if_pos h]
  exact ⟨hmain, by rw [hmain], by rw [hmain], by rw [hmain], by rw [hmain]⟩

/-- A contract currently under contract on supply point "SPN-A". -/
def exContractA : ContractRow :=
  { id := 1, customer_id := 1, plan_id := 1, supply_point_number := "SPN-A"
    start_date := ⟨2024, 4, 1⟩, end_date := ⟨2026, 3, 31⟩
    negotiated_power_kw := none, status := ContractStatus.UNDER_CONTRACT }

/-- A contract already recontracted on supply point "SPN-B". -/
def exContractB : ContractRow :=
  { id := 2, customer_id := 1, plan_id := 1, supply_point_number := "SPN-B"
    start_date := ⟨2024, 4, 1⟩, end_date := ⟨2026, 3, 31⟩
    negotiated_power_kw := some 450, status := ContractStatus.RECONTRACTED }

/-- Recontract database: one plan, one customer, the two contracts
above, and no estimates yet. -/
def exRecontractDb : RecontractDb :=
  { plans := [⟨1, "Standard"⟩], customers := [⟨1, "Acme"⟩]
    contracts := [exContractA, exContractB]
    estimates := [], recontract_supply_points := [], recontract_plants := []
    nextEstimateId := 1, nextSupplyPointId := 1, nextPlantId := 1 }

/-- A payload whose customer id 99 references no customer row. -/
def exPayloadC2 : RecontractEstimateIn :=
  { plan_id := 1, customer_id := 99, desired_quote_date := ⟨2025, 10, 20⟩
    quote_effective_days := 30, remarks := none
    supply_points := [⟨"SPN-A"⟩], plants := [] }

/-- Witness for `C2_invalid_fk_returns_400_no_writes`: submitting with
customer id 99 (nonexistent) returns 400 and writes nothing. -/
theorem C2_witness :
    create_recontract_estimate exRecontractDb exPayloadC2
      = (exRecontractDb, Except.error 400) :=
  (C2_invalid_fk_returns_400_no_writes exRecontractDb exPayloadC2
    (Or.inr (by decide))).1

/-- The bulk update is the identity on a contract when the estimate has
no supply points. -/
theorem applyRecontractTransition_nil (c : ContractRow) :
    applyRecontractTransition [] c = c := by
  simp [applyRecontractTransition]

/-- C3: on every successful creation the contracts table becomes exactly
the image of the bulk-update rule, which sets status to
RECONTRACT_ESTIMATE on precisely the rows whose supply-point number is
among the estimate's numbers and whose status is UNDER_CONTRACT (zero,
one or many rows), and returns every other row — different number or
different status — entirely unchanged, all other columns included. -/
theorem C3_bulk_transition_scope (db : RecontractDb) (payload : RecontractEstimateIn)
    (eid : Nat) (db2 : RecontractDb)
    (hok : create_recontract_estimate db payload = (db2, Except.ok eid)) :
    db2.contracts = db.contracts.map (applyRecontractTransition
      (payload.supply_points.map (fun sp => sp.supply_point_number))) ∧
    (∀ (spns : List String) (c : ContractRow),
      spns.contains c.supply_point_number →
      c.status = ContractStatus.UNDER_CONTRACT →
        applyRecontractTransition spns c
          = { c with status := ContractStatus.RECONTRACT_ESTIMATE }) ∧
    (∀ (spns : List String) (c : ContractRow),
      ¬(spns.contains c.supply_point_number
          ∧ c.status = ContractStatus.UNDER_CONTRACT) →
        applyRecontractTransition spns c = c) := by
  refine ⟨?_, ?_, ?_⟩
  · unfold create_recontract_estimate at hok
    split at hok
    · simp at hok
    · split at hok
      · simp at hok
      · split at hok
        · simp at hok
        · have h1 := congrArg Prod.fst hok
          simp only at h1
          rw [← h1]
          by_cases hempty : payload.supply_points.isEmpty
          · rw [List.isEmpty_iff.mp hempty]
            show db.contracts = _
            rw [List.isEmpty_iff.mp hempty] at hempty ⊢
            simp only [List.map_nil]
            exact (List.map_id'' applyRecontractTransition_nil db.contracts).symm
          · show (if payload.supply_points.isEmpty then db.contracts
              else db.contracts.map _) = _
            rw [if_neg hempty]
  · intro spns c h1 h2
    unfold applyRecontractTransition
    rw [if_pos ⟨h1, h2⟩]
  · intro spns c h
    unfold applyRecontractTransition
    rw [if_neg h]

/-- A payload covering supply points "SPN-A" and "SPN-B". -/
def exPayloadC3 : RecontractEstimateIn :=
  { plan_id := 1, customer_id := 1, desired_quote_date := ⟨2025, 10, 20⟩
    quote_effective_days := 30, remarks := none
    supply_points := [⟨"SPN-A"⟩, ⟨"SPN-B"⟩], plants := [] }

/-- Witness for `C3_bulk_transition_scope`: an estimate covering SPN-A
(UNDER_CONTRACT) and SPN-B (RECONTRACTED) flips SPN-A's contract to
RECONTRACT_ESTIMATE and leaves SPN-B's row unchanged. -/
theorem C3_witness :
    (create_recontract_estimate exRecontractDb exPayloadC3).1.contracts
      = exRecontractDb.contracts.map (applyRecontractTransition
          (exPayloadC3.supply_points.map (fun sp => sp.supply_point_number))) ∧
    applyRecontractTransition ["SPN-A", "SPN-B"] exContractA
      = { exContractA with status := ContractStatus.RECONTRACT_ESTIMATE } ∧
    applyRecontractTransition ["SPN-A", "SPN-B"] exContractB = exContractB := by
  have h := C3_bulk_transition_scope exRecontractDb exPayloadC3 1
    (create_recontract_estimate exRecontractDb exPayloadC3).1 (by rfl)
  exact ⟨h.1, h.2.1 _ _ (by decide) (by decide), h.2.2 _ _ (by decide)⟩

/-- The plant rows `create_recontract_estimate` inserts: the implicit
zero-capacity scenario followed by the user-supplied scenarios. -/
def newPlantRows (db : RecontractDb) (payload : RecontractEstimateIn) :
    List RecontractPlantRow :=
  { id := db.nextPlantId, estimate_id := db.nextEstimateId,
    capacity_mw := 0, ppa_unit_price_yen_per_kwh := none } ::
  payload.plants.enum.map (fun ip =>
    { id := db.nextPlantId + 1 + ip.1, estimate_id := db.nextEstimateId,
      capacity_mw := ip.2.capacity_mw,
      ppa_unit_price_yen_per_kwh := ip.2.ppa_unit_price_yen_per_kwh })

/-- C9: every successful creation stores, for the new estimate, exactly
one implicit plant row (capacity 0.0 MW, null unit price) followed by
one row per user-supplied plant, so `k` supplied plants yield `k + 1`
stored rows, with the user scenarios keeping their capacities and unit
prices in order.  `hfresh` says the generated estimate id is fresh, as
a database autoincrement key is. -/
theorem C9_plants_k_plus_one (db : RecontractDb) (payload : RecontractEstimateIn)
    (eid : Nat) (db2 : RecontractDb)
    (hok : create_recontract_estimate db payload = (db2, Except.ok eid))
    (hfresh : ∀ p ∈ db.recontract_plants, p.estimate_id ≠ db.nextEstimateId) :
    plantsOfEstimate db2 eid = newPlantRows db payload ∧
    (plantsOfEstimate db2 eid).length = payload.plants.length + 1 ∧
    (plantsOfEstimate db2 eid).head?
      = some { id := db.nextPlantId, estimate_id := db.nextEstimateId,
               capacity_mw := 0, ppa_unit_price_yen_per_kwh := none } ∧
    (plantsOfEstimate db2 eid).tail.map
        (fun p => (p.capacity_mw, p.ppa_unit_price_yen_per_kwh))
      = payload.plants.map (fun p => (p.capacity_mw, p.ppa_unit_price_yen_per_kwh)) := by
  unfold create_recontract_estimate at hok
  split at hok
  · simp at hok
  · split at hok
    · simp at hok
    · split at hok
      · simp at hok
      · have h1 := congrArg Prod.fst hok
        have h2 := congrArg Prod.snd hok
        simp only at h1 h2
        have heid : db.nextEstimateId = eid := Except.ok.inj h2
        subst heid
        have hplants : db2.recontract_plants
            = db.recontract_plants ++ newPlantRows db payload := by
          rw [← h1]
          exact rfl
        have hfilter : plantsOfEstimate db2 db.nextEstimateId
            = newPlantRows db payload := by
          unfold plantsOfEstimate
          rw [hplants, List.filter_append]
          have hnil : db.recontract_plants.filter
              (fun p => p.estimate_id = db.nextEstimateId) = [] := by
            rw [List.filter_eq_nil_iff]
            intro a ha
            simpa using hfresh a ha
          have hself : (newPlantRows db payload).filter
              (fun p => p.estimate_id = db.nextEstimateId)
              = newPlantRows db payload := by
            rw [List.filter_eq_self]
            intro a ha
            simp only [newPlantRows, List.mem_cons, List.mem_map] at ha
            rcases ha with rfl | ⟨ip, _, rfl⟩ <;> simp
          rw [hnil, hself, List.nil_append]
        refine ⟨hfilter, ?_, ?_, ?_⟩
        · rw [hfilter]
          simp [newPlantRows, List.enum_length]
        · rw [hfilter]
          simp [newPlantRows]
        · rw [hfilter]
          simp only [newPlantRows, List.tail_cons, List.map_map]
          rw [show ((fun p : RecontractPlantRow =>
                (p.capacity_mw, p.ppa_unit_price_yen_per_kwh)) ∘
              (fun ip : Nat × PlantIn =>
                ({ id := db.nextPlantId + 1 + ip.1,
                   estimate_id := db.nextEstimateId,
                   capacity_mw := ip.2.capacity_mw,
                   ppa_unit_price_yen_per_kwh := ip.2.ppa_unit_price_yen_per_kwh } :
                  RecontractPlantRow)))
              = ((fun p : PlantIn => (p.capacity_mw, p.ppa_unit_price_yen_per_kwh)) ∘
                  Prod.snd) from rfl]
          rw [← List.map_map, List.enum_map_snd]

/-- A payload supplying two capacity scenarios. -/
def exPayloadC9 : RecontractEstimateIn :=
  { plan_id := 1, customer_id := 1, desired_quote_date := ⟨2025, 10, 20⟩
    quote_effective_days := 60, remarks := some "renewal"
    supply_points := [⟨"SPN-A"⟩], plants := [⟨2, some 12⟩, ⟨3, none⟩] }

/-- Witness for `C9_plants_k_plus_one`: supplying 2 plants stores 3
plant rows for the created estimate. -/
theorem C9_witness :
    (plantsOfEstimate
        (create_recontract_estimate exRecontractDb exPayloadC9).1 1).length
      = exPayloadC9.plants.length + 1 :=
  (C9_plants_k_plus_one exRecontractDb exPayloadC9 1
    (create_recontract_estimate exRecontractDb exPayloadC9).1
    (by rfl) (by decide)).2.1

/-- Concatenating the first `n` limit/offset pages of an execution order
`l` yields its first `n * rows` elements. -/
theorem concatPages_eq_take (l : List ListRow) (rows n : Nat) :
    concatPages l rows n = l.take (n * rows) := by
  induction n with
  | zero => simp [concatPages]
  | succ k ih =>
    rw [show concatPages l rows (k + 1)
        = concatPages l rows k ++ pageOf l rows (k + 1) from rfl,
      ih, Nat.succ_mul, List.take_add]
    congr 1

/-- If the bundle ids are distinct (primary key), the grouped result
rows carry distinct bundle ids. -/
theorem groupedBundles_ids_nodup (db : PpaDb) (f : ListFilters)
    (hids : (db.bundles.map (fun b => b.id)).Nodup) :
    ((groupedBundles db f).map (fun r => r.bundle_id)).Nodup := by
  unfold groupedBundles
  rw [List.map_map]
  exact List.Nodup.sublist
    (List.Sublist.map (fun b : PpaBundleRow => b.id)
      (List.filter_sublist db.bundles)) hids

/-- A bundle sharing its `updated_at` tick with another bundle. -/
def exBundleC4a : PpaBundleRow :=
  { id := 1, customer_id := 1, agency_id := none, plan_id := 1, area := "KANTO"
    requested_at := none, request_due_date := none, quote_valid_days := none
    contract_start_date := none, updated_at := 5 }

/-- A second bundle with the same `updated_at` tick. -/
def exBundleC4b : PpaBundleRow :=
  { exBundleC4a with id := 2, customer_id := 2 }

/-- Database with two bundles tied on `updated_at`. -/
def exDbC4 : PpaDb :=
  { plans := [⟨1, "PPA Standard"⟩]
    customers := [⟨1, "Acme"⟩, ⟨2, "Bolt"⟩]
    agencies := []
    bundles := [exBundleC4a, exBundleC4b]
    projects := []
    supply_points := [] }

/-- The grouped row of bundle 1. -/
def exRowA : ListRow :=
  { bundle_id := 1, customer_name := "Acme", updated_at := 5
    sp_count := 0, sum_kw := 0, project_count := 0 }

/-- The grouped row of bundle 2. -/
def exRowB : ListRow :=
  { bundle_id := 2, customer_name := "Bolt", updated_at := 5
    sp_count := 0, sum_kw := 0, project_count := 0 }

/-- C4 as stated is false: the code orders only by the resolved sort
column — there is no bundle-id tie-break in `list_ppa_quotations` — so
two bundles tied on `updated_at` admit two different execution orders
both satisfying everything the emitted `ORDER BY` enforces; fetching
page 1 under one order and page 2 under the other (page size 1) returns
bundle 1 twice and bundle 2 never, although `filtered_count` is 2. -/
theorem C4_counterexample :
    validListExecution exDbC4 exNoFilters [exRowA, exRowB] ∧
    validListExecution exDbC4 exNoFilters [exRowB, exRowA] ∧
    filteredCount exDbC4 exNoFilters = 2 ∧
    (pageOf [exRowA, exRowB] 1 1 ++ pageOf [exRowB, exRowA] 1 2).map
        (fun r => r.bundle_id) = [1, 1] := by
  have hg : groupedBundles exDbC4 exNoFilters = [exRowA, exRowB] := by decide
  have hchAB : List.Chain' (fun a b : ListRow => b.updated_at ≤ a.updated_at)
      [exRowA, exRowB] := by
    simp [List.chain'_cons, exRowA, exRowB]
  have hchBA : List.Chain' (fun a b : ListRow => b.updated_at ≤ a.updated_at)
      [exRowB, exRowA] := by
    simp [List.chain'_cons, exRowA, exRowB]
  refine ⟨⟨?_, hchAB⟩, ⟨?_, hchBA⟩, by decide, by decide⟩
  · rw [hg]
  · rw [hg]
    exact List.Perm.swap exRowA exRowB []

/-- C4 amended: the query has no id tie-break, so the pagination
invariant holds only when every page is served from one and the same
execution order (e.g. when the sort-column values are distinct or the
database happens to order deterministically): then, for any filter set
and page size, the concatenation of pages 1..n covering the result set
contains exactly `filtered_count` rows, with no bundle duplicated and
none omitted. -/
theorem C4_amended (db : PpaDb) (f : ListFilters) (rows n : Nat) (l : List ListRow)
    (hexec : validListExecution db f l)
    (hcover : filteredCount db f ≤ n * rows)
    (hids : (db.bundles.map (fun b => b.id)).Nodup) :
    concatPages l rows n = l ∧
    (concatPages l rows n).length = filteredCount db f ∧
    ((concatPages l rows n).map (fun r => r.bundle_id)).Nodup ∧
    ∀ r ∈ groupedBundles db f, r ∈ concatPages l rows n := by
  obtain ⟨hperm, hsorted⟩ := hexec
  have hlen : l.length = filteredCount db f := hperm.length_eq
  have hall : concatPages l rows n = l := by
    rw [concatPages_eq_take]
    exact List.take_of_length_le (by rw [hlen]; exact hcover)
  refine ⟨hall, by rw [hall, hlen], ?_, ?_⟩
  · rw [hall]
    exact ((hperm.map (fun r => r.bundle_id)).nodup_iff).mpr
      (groupedBundles_ids_nodup db f hids)
  · intro r hr
    rw [hall]
    exact hperm.mem_iff.mpr hr

/-- Witness for `C4_amended`: with a fixed execution order of the
two-bundle database, pages of size 1 concatenate to exactly the two
grouped rows, without duplication or omission. -/
theorem C4_amended_witness :
    concatPages [exRowA, exRowB] 1 2 = [exRowA, exRowB] ∧
    (concatPages [exRowA, exRowB] 1 2).length = filteredCount exDbC4 exNoFilters ∧
    ((concatPages [exRowA, exRowB] 1 2).map (fun r => r.bundle_id)).Nodup ∧
    ∀ r ∈ groupedBundles exDbC4 exNoFilters, r ∈ concatPages [exRowA, exRowB] 1 2 :=
  C4_amended exDbC4 exNoFilters 1 2 [exRowA, exRowB]
    ⟨by rw [show groupedBundles exDbC4 exNoFilters = [exRowA, exRowB] from by decide],
     by simp [List.chain'_cons, exRowA, exRowB]⟩
    (by decide) (by decide)
